import Mathlib

/-!
Verification of the real-time presence, room-membership and notification
fan-out engine of the civic-engagement backend.

The definitions below are a shallow embedding of the JavaScript source:

* `src/socket/socketHandler.js` — connection handler, online-user registry,
  room join/leave handlers, message edit/delete handlers;
* `src/middleware/socketAuth.js` — handshake authentication gate;
* `src/controllers/moderationLogController.js` — `createLogInternal`;
* `src/controllers/users/userController.js` — `getPostTargetRoom`,
  the real-time parts of `createPost` and `castPollVote`;
* the comment controller — `_handleCreateComment`.

Database fetches (`findById`, `find`) are modelled by passing the fetched
document in as an explicit argument: the handlers in the source fetch
persisted state afresh on every action, so each model function receives the
state that the fetch would return at action time.  Socket.IO emissions are
modelled as an explicit list of `Emission` values.
-/

set_option autoImplicit false

namespace CivicBackend

/-! ### JavaScript Map semantics

The online-user registry is a JavaScript `Map`.  `set` overwrites the value
of an existing key in place (keeping its position) and appends a fresh key;
`delete` removes a key; `keys()` iterates in insertion order. -/

/-- Association list with JavaScript `Map` semantics, keys and values both strings. -/
abbrev JsMap := List (String × String)

/-- JavaScript `Map.has`. -/
def mapHas (m : JsMap) (k : String) : Bool :=
  m.any (fun p => p.1 == k)

/-- JavaScript `Map.set`: overwrite in place when the key exists, else append. -/
def mapSet (m : JsMap) (k v : String) : JsMap :=
  if mapHas m k then m.map (fun p => if p.1 == k then (k, v) else p)
  else m ++ [(k, v)]

/-- JavaScript `Map.delete`. -/
def mapDelete (m : JsMap) (k : String) : JsMap :=
  m.filter (fun p => p.1 != k)

/-- JavaScript `Map.keys()` in insertion order. -/
def mapKeys (m : JsMap) : List String :=
  m.map Prod.fst

/-- JavaScript `Set` built from a list: first occurrence of each element is kept,
in insertion order (`new Set([...a, ...b])`). -/
def jsSetOfList (l : List String) : List String :=
  l.foldl (fun acc x => if acc.contains x then acc else acc ++ [x]) []

/-- Mongoose `ObjectId.isValid` on a string argument: a 24-character hexadecimal
string, or any 12-character string. -/
def isValidObjectId (s : String) : Bool :=
  (s.length == 24 && s.data.all (fun c => c.isDigit || "abcdefABCDEF".data.contains c))
    || s.length == 12

/-! ### Emissions -/

/-- Destination of one Socket.IO emission: `socket.emit` goes back to the
requesting connection, `io.to(room).emit` goes to a room, `io.emit` is a
platform-wide broadcast. -/
inductive Target where
  | toSender
  | toRoom (room : String)
  | broadcast
deriving DecidableEq, Repr

/-- One Socket.IO emission: destination plus event name. -/
structure Emission where
  target : Target
  event : String
deriving DecidableEq, Repr

/-! ### Online-user registry (socketHandler.js)

`const onlineUsers = new Map()` maps a user id to a single socket id. -/

/-- Effect of the connection handler on the registry
(socketHandler.js line 108): `onlineUsers.set(userId.toString(), socket.id)`. -/
def connectRegistry (m : JsMap) (userId socketId : String) : JsMap :=
  mapSet m userId socketId

/-- Disconnect handler (socketHandler.js lines 416-428): find the entry whose
value equals the disconnecting socket id; when found, delete that user and
broadcast `user:onlineList`; otherwise do nothing.  Returns the new registry
and whether the broadcast fired. -/
def disconnectRegistry (m : JsMap) (socketId : String) : JsMap × Bool :=
  match m.find? (fun p => p.2 == socketId) with
  | some p => (mapDelete m p.1, true)
  | none => (m, false)

/-- Event affecting the registry: a connection handshake completing for a user,
or a socket disconnecting. -/
inductive RegEvent where
  | connect (userId socketId : String)
  | disconnect (socketId : String)

/-- One registry step together with ground truth: the first component is the
registry as the code maintains it, the second is the actual set of live
connections as (userId, socketId) pairs. -/
def stepRegistry (st : JsMap × List (String × String)) (e : RegEvent) :
    JsMap × List (String × String) :=
  match e with
  | .connect u s => (connectRegistry st.1 u s, st.2 ++ [(u, s)])
  | .disconnect s => ((disconnectRegistry st.1 s).1, st.2.filter (fun c => c.2 != s))

/-- Run a sequence of connection events from an empty registry and no live
connections. -/
def runRegistry (evs : List RegEvent) : JsMap × List (String × String) :=
  evs.foldl stepRegistry ([], [])

/-! ### Rooms joined at and after handshake (socketHandler.js) -/

/-- `socket.join` adds a room to the set of rooms of a connection (idempotent). -/
def socketJoin (rooms : List String) (room : String) : List String :=
  if rooms.contains room then rooms else rooms ++ [room]

/-- Personal room joined automatically at connection time
(socketHandler.js line 94): `socket.join(userId.toString())` — the bare user id. -/
def personalRoom (userId : String) : String := userId

/-- Room targeted by `newNotification` pushes in the comment controller:
`ioInstance.to(post.authorId.toString())` — the bare recipient id. -/
def newNotificationRoom (recipientId : String) : String := recipientId

/-- Room targeted by `notification:count:update` badge pushes in
`createLogInternal` and `createPost`: the string `user:` followed by the id. -/
def badgeCountRoom (userId : String) : String := "user:" ++ userId

/-- Rooms a connection occupies immediately after a successful handshake
(socketHandler.js lines 93-124): the personal room, `admin:approvals` when the
authenticated role is admin, and one `community:` room per approved community
the user is a member, owner or moderator of. -/
def handshakeRooms (userId role : String) (approvedCommunityIds : List String) :
    List String :=
  personalRoom userId ::
    ((if role == "admin" then ["admin:approvals"] else []) ++
      approvedCommunityIds.map (fun cid => "community:" ++ cid))

/-- Handler for the client-sent `user:online` event (socketHandler.js
lines 405-411): when the payload id is truthy, join the room `user:` + id. -/
def userOnlineHandler (rooms : List String) (payloadUserId : String) : List String :=
  if payloadUserId == "" then rooms else socketJoin rooms ("user:" ++ payloadUserId)

/-- Whether an emission to the given room reaches a connection occupying the
given room set (Socket.IO delivers a room emission to exactly the sockets in
the room). -/
def deliveredToConn (rooms : List String) (room : String) : Bool :=
  rooms.contains room

/-- `joinRoom` handler (socketHandler.js lines 133-136): `socket.join(roomId)`
with no authorization check of any kind. -/
def joinRoomHandler (rooms : List String) (roomId : String) : List String :=
  socketJoin rooms roomId

/-- `joinPostRoom` handler (socketHandler.js lines 283-287): joins
`post:` + postId with no authorization check of any kind. -/
def joinPostRoomHandler (rooms : List String) (postId : String) : List String :=
  socketJoin rooms ("post:" ++ postId)

/-! ### Community membership helper and community room join handlers -/

/-- Community document as selected by the handlers
(`select("members owners moderators")`). -/
structure Community where
  members : List String
  owners : List String
  moderators : List String
deriving DecidableEq, Repr

/-- Port of `isUserCommunityMemberOrAdmin` (socketHandler.js lines 44-69); the
`Community.findById` result is the `fetched` argument, `none` modelling a
missing community.  Returns the pair (isMember, isAdmin): isMember is
member-or-owner, isAdmin is owner-or-moderator. -/
def isUserCommunityMemberOrAdmin (fetched : Option Community) (userId : String) :
    Bool × Bool :=
  match fetched with
  | none => (false, false)
  | some c =>
      (c.members.contains userId || c.owners.contains userId,
       c.owners.contains userId || c.moderators.contains userId)

/-- Reply of a room-join handler: either the connection was added to a room and
a confirmation event emitted, or an `errorMessage` was emitted to the
requesting connection only and no join happened. -/
inductive SocketReply where
  | joinedRoom (room : String) (confirmEvent : String)
  | errorMessage (msg : String)
deriving DecidableEq, Repr

/-- `joinCommunityFeedRoom` handler (socketHandler.js lines 249-271): reject
an invalid community id; re-check membership against the community document
fetched at action time; only isMember (member-or-owner) grants access. -/
def joinCommunityFeedRoom (fetched : Option Community) (userId communityId : String) :
    SocketReply :=
  if !(isValidObjectId communityId) then
    .errorMessage "Invalid community ID."
  else
    let mi := isUserCommunityMemberOrAdmin fetched userId
    if !(mi.1) then
      .errorMessage "Not authorized to access this community\x27s feed."
    else
      .joinedRoom ("community:" ++ communityId) "joinedCommunityFeedRoom"

/-- `joinCommunityRoom` handler (socketHandler.js lines 363-384): reject an
invalid community id; grant access when isMember or isAdmin holds for the
community document fetched at action time. -/
def joinCommunityRoom (fetched : Option Community) (userId communityId : String) :
    SocketReply :=
  if !(isValidObjectId communityId) then
    .errorMessage "Invalid community ID."
  else
    let mi := isUserCommunityMemberOrAdmin fetched userId
    if !(mi.1) && !(mi.2) then
      .errorMessage "Not authorized to join this community room."
    else
      .joinedRoom ("community:" ++ communityId) "joinedCommunityRoom"

/-! ### Handshake authentication (middleware/socketAuth.js) -/

/-- Decoded JWT payload attached to the socket by the auth middleware.  The
connection handler reads `userId`, `id`, `_id`, `fullName` and `role`. -/
structure DecodedUser where
  userId : Option String
  id : Option String
  _id : Option String
  fullName : Option String
  role : Option String

/-- Port of the `socketAuth` middleware (middleware/socketAuth.js): a missing
handshake token or a token that fails verification yields an authentication
error; otherwise the decoded user is attached to the socket.  `jwt.verify` is
abstracted as the `verify` argument (`none` = verification throws). -/
def socketAuth (verify : String → Option DecodedUser) (handshakeToken : Option String) :
    Except String DecodedUser :=
  match handshakeToken with
  | none => .error "Authentication error"
  | some t =>
    match verify t with
    | none => .error "Authentication error"
    | some u => .ok u

/-- JavaScript `a || b` on optional strings: the empty string is falsy. -/
def jsOrString (a b : Option String) : Option String :=
  match a with
  | some s => if s == "" then b else some s
  | none => b

/-- Outcome classification of an incoming connection. -/
inductive ConnOutcome where
  | authRejected (err : String)
  | droppedNoUserId
  | connected (userId : String)
deriving DecidableEq, Repr

/-- Result of an incoming connection: outcome, the rooms the connection was
joined to, and the online-user registry afterwards. -/
structure ConnResult where
  outcome : ConnOutcome
  joinedRooms : List String
  registry : JsMap
deriving DecidableEq, Repr

/-- Connection pipeline: the `socketAuth` gate followed by the start of the
connection handler (socketHandler.js lines 76-130).  A failed handshake never
reaches the handler: no room is joined and the registry is untouched.  An
authenticated socket resolves its user id from `userId`, `id` or `_id`
(JavaScript truthiness), is disconnected when none resolves — again before any
join or registry write — and otherwise joins its handshake rooms and is added to
the registry. -/
def connectionPipeline (verify : String → Option DecodedUser)
    (handshakeToken : Option String) (registry : JsMap) (socketId : String)
    (approvedCommunityIds : List String) : ConnResult :=
  match socketAuth verify handshakeToken with
  | .error e => ⟨.authRejected e, [], registry⟩
  | .ok u =>
    match jsOrString u.userId (jsOrString u.id u._id) with
    | none => ⟨.droppedNoUserId, [], registry⟩
    | some uid =>
        if uid == "" then ⟨.droppedNoUserId, [], registry⟩
        else
          ⟨.connected uid,
           handshakeRooms uid (u.role.getD "") approvedCommunityIds,
           connectRegistry registry uid socketId⟩

/-! ### Moderation log creation (moderationLogController.js) -/

/-- Persisted moderation log entry (moderationLogModel fields used by
`createLogInternal`); a `none` community id marks a global action. -/
structure ModerationLogEntry where
  communityId : Option String
  moderatorId : String
  action : String
  targetId : Option String
  reason : String
deriving DecidableEq, Repr

/-- Argument object of `createLogInternal`.  A missing `action` is the empty
string (JavaScript falsiness of `!action`). -/
structure LogData where
  communityId : Option String
  moderatorId : String
  action : String
  targetId : Option String
  reason : String
deriving DecidableEq, Repr

/-- Validation performed by `createLogInternal` (moderationLogController.js
lines 50-63): the moderator id must be a valid ObjectId, a supplied community
id must be a valid ObjectId, and the action must be present. -/
def logDataValid (d : LogData) : Bool :=
  isValidObjectId d.moderatorId &&
    (match d.communityId with
     | some cid => isValidObjectId cid
     | none => true) &&
    d.action != ""

/-- Badge push attempted for one owner/moderator id (moderationLogController.js
lines 93-97): emitted to the room `user:` + id only when the online-user
registry has the id. -/
def badgeEmitFor (onlineMap : JsMap) (id : String) : Option Emission :=
  if mapHas onlineMap id then
    some ⟨.toRoom ("user:" ++ id), "notification:count:update"⟩
  else none

/-- Result of a `createLogInternal` call: the entries persisted by the call,
the emissions it produced in order, and its return value (`none` models the
JavaScript `null`). -/
structure LogResult where
  saved : List ModerationLogEntry
  emissions : List Emission
  result : Option ModerationLogEntry
deriving DecidableEq, Repr

/-- Port of `createLogInternal` (moderationLogController.js lines 45-134).
Validation failure returns null with nothing persisted.  Otherwise the entry is
saved; with the Socket.IO instance set, a community-scoped entry fans out one
badge push per distinct online owner/moderator of the community fetched at call
time (a JavaScript `Set` de-duplicates the union) followed by the
`moderation:log:created` room emission.  In the global branch the code reads
the identifier `User`, which the module never imports, so execution raises a
ReferenceError after the save; the surrounding catch turns it into a null
return, the saved entry staying persisted and no emission happening. -/
def createLogInternal (ioEnabled : Bool) (onlineMap : JsMap)
    (fetched : Option Community) (d : LogData) : LogResult :=
  if !(logDataValid d) then ⟨[], [], none⟩
  else
    let log : ModerationLogEntry :=
      ⟨d.communityId, d.moderatorId, d.action, d.targetId, d.reason⟩
    if !ioEnabled then ⟨[log], [], some log⟩
    else
      match d.communityId with
      | some cid =>
          let badge : List Emission :=
            match fetched with
            | none => []
            | some c =>
                (jsSetOfList (c.owners ++ c.moderators)).filterMap (badgeEmitFor onlineMap)
          ⟨[log],
           badge ++ [⟨.toRoom ("community:" ++ cid), "moderation:log:created"⟩],
           some log⟩
      | none => ⟨[log], [], none⟩

/-- Number of `notification:count:update` pushes addressed to the personal
badge room of a given user id within an emission list. -/
def badgePushCount (es : List Emission) (id : String) : Nat :=
  (es.filter (fun e =>
    e.event == "notification:count:update" &&
      e.target == Target.toRoom ("user:" ++ id))).length

/-! ### Content events (userController.js) -/

/-- Post as populated for emission; `communityId` is the populated community
identity when the post belongs to one. -/
structure PopulatedPost where
  communityId : Option String
deriving DecidableEq, Repr

/-- Port of `getPostTargetRoom` (userController.js lines 286-293): the
community room when the post carries a community identity, else `global:feed`. -/
def getPostTargetRoom (post : PopulatedPost) : String :=
  match post.communityId with
  | some cid => "community:" ++ cid
  | none => "global:feed"

/-- Real-time emissions of `createPost` (userController.js lines 465-512) with
the Socket.IO instance and online map set: one `newPost` to the target room,
then one badge push per distinct online recipient — community members, owners
and moderators except the author for a community post, every online user except
the author for a global post. -/
def createPostEmissions (post : PopulatedPost) (fetched : Option Community)
    (onlineMap : JsMap) (authorId : String) : List Emission :=
  let notified : List String :=
    match post.communityId, fetched with
    | some _, some c =>
        (jsSetOfList (c.members ++ c.owners ++ c.moderators)).filter
          (fun id => id != authorId)
    | some _, none => []
    | none, _ => (mapKeys onlineMap).filter (fun id => id != authorId)
  ⟨.toRoom (getPostTargetRoom post), "newPost"⟩ ::
    notified.filterMap (badgeEmitFor onlineMap)

/-- Real-time emissions of `castPollVote` (userController.js lines 941-946):
exactly one `pollVoteUpdated` to the target room. -/
def castPollVoteEmissions (poll : PopulatedPost) : List Emission :=
  [⟨.toRoom (getPostTargetRoom poll), "pollVoteUpdated"⟩]

/-! ### Comment creation (comment controller) -/

/-- Post as selected by `_handleCreateComment` (`select("authorId title")`). -/
structure PostDoc where
  authorId : String
  title : String
deriving DecidableEq, Repr

/-- Parent comment as needed by the reply branch. -/
structure CommentDoc where
  authorId : String
deriving DecidableEq, Repr

/-- Notification document fields relevant to the fan-out claims. -/
structure NotificationDoc where
  recipientId : String
  senderId : String
  type : String
deriving DecidableEq, Repr

/-- Port of `_handleCreateComment` (comment controller): throws when the post is
missing; saves the comment; for a reply (parentId present) notifies the parent
comment author unless they are the commenter; for a top-level comment notifies
the post author unless they are the commenter.  Each notification is saved and
then emitted as `newNotification` to the bare recipient id room.  Returns the
notifications persisted and the emissions produced. -/
def handleCreateComment (post : Option PostDoc) (parentId : Option String)
    (parentComment : Option CommentDoc) (userId : String) :
    Except String (List NotificationDoc × List Emission) :=
  match post with
  | none => .error "Post not found."
  | some p =>
    match parentId with
    | some _ =>
        match parentComment with
        | none => .ok ([], [])
        | some pc =>
            if pc.authorId == userId then .ok ([], [])
            else
              .ok ([⟨pc.authorId, userId, "reply_comment"⟩],
                   [⟨.toRoom (newNotificationRoom pc.authorId), "newNotification"⟩])
    | none =>
        if p.authorId == userId then .ok ([], [])
        else
          .ok ([⟨p.authorId, userId, "comment_post"⟩],
               [⟨.toRoom (newNotificationRoom p.authorId), "newNotification"⟩])

/-! ### Message edit and delete handlers (socketHandler.js) -/

/-- Message document fields read by the edit and delete handlers. -/
structure MessageDoc where
  author : String
  conversationId : String
  isDeleted : Bool
deriving DecidableEq, Repr

/-- `editMessage` handler (socketHandler.js lines 185-208): an invalid message
id, a missing message and an already-deleted message all return silently with
no emission; a sender who is not the author gets `errorMessage`; otherwise the
edit is saved and `messageEdited` goes to the conversation room. -/
def editMessageHandler (fetched : Option MessageDoc) (userId messageId : String) :
    List Emission :=
  if !(isValidObjectId messageId) then []
  else
    match fetched with
    | none => []
    | some m =>
      if m.isDeleted then []
      else if !(m.author == userId) then [⟨.toSender, "errorMessage"⟩]
      else [⟨.toRoom m.conversationId, "messageEdited"⟩]

/-- `deleteMessage` handler (socketHandler.js lines 210-234): same shape as
`editMessage`; success emits `messageDeleted` to the conversation room. -/
def deleteMessageHandler (fetched : Option MessageDoc) (userId messageId : String) :
    List Emission :=
  if !(isValidObjectId messageId) then []
  else
    match fetched with
    | none => []
    | some m =>
      if m.isDeleted then []
      else if !(m.author == userId) then [⟨.toSender, "errorMessage"⟩]
      else [⟨.toRoom m.conversationId, "messageDeleted"⟩]

/-! ### Helper lemmas -/

/-- Appending a fixed string on the left is injective. -/
theorem string_append_left_cancel {p a b : String} (h : p ++ a = p ++ b) : a = b := by
  have hd := congrArg String.data h
  simp [String.data_append] at hd
  exact String.ext hd

/-- The badge room of a user differs from the bare-id personal room. -/
theorem userRoomNe (u : String) : ("user:" ++ u) ≠ u := by
  intro h
  have hl := congrArg String.length h
  rw [String.length_append] at hl
  have h5 : ("user:").length = 5 := rfl
  rw [h5] at hl
  omega

/-- A connection always ends up in the room it calls `socket.join` on. -/
theorem socketJoin_contains (rooms : List String) (r : String) :
    (socketJoin rooms r).contains r = true := by
  by_cases h : r ∈ rooms
  · simp [socketJoin, h]
  · simp [socketJoin, h]

/-- The JavaScript-Set fold keeps the accumulator duplicate-free. -/
theorem jsSetAux_nodup (l : List String) :
    ∀ acc : List String, acc.Nodup →
      (l.foldl (fun acc x => if acc.contains x then acc else acc ++ [x]) acc).Nodup := by
  induction l with
  | nil => intro acc h; simpa using h
  | cons y l ih =>
      intro acc h
      simp only [List.foldl_cons]
      by_cases hy : acc.contains y = true
      · rw [if_pos hy]; exact ih acc h
      · rw [if_neg hy]
        apply ih
        have hy2 : y ∉ acc := by simpa using hy
        simp [List.nodup_append, h, hy2]

/-- Membership in the JavaScript-Set fold. -/
theorem mem_jsSetAux (l : List String) (x : String) :
    ∀ acc : List String,
      (x ∈ l.foldl (fun acc x => if acc.contains x then acc else acc ++ [x]) acc ↔
        x ∈ acc ∨ x ∈ l) := by
  induction l with
  | nil => intro acc; simp
  | cons y l ih =>
      intro acc
      simp only [List.foldl_cons]
      by_cases hy : acc.contains y = true
      · rw [if_pos hy, ih]
        have hya : y ∈ acc := by simpa using hy
        constructor
        · rintro (h | h)
          · exact Or.inl h
          · exact Or.inr (List.mem_cons_of_mem _ h)
        · rintro (h | h)
          · exact Or.inl h
          · rcases List.mem_cons.mp h with rfl | h
            · exact Or.inl hya
            · exact Or.inr h
      · rw [if_neg hy, ih]
        simp [List.mem_append, List.mem_cons]
        tauto

/-- The list a JavaScript `Set` yields has no duplicates. -/
theorem jsSetOfList_nodup (l : List String) : (jsSetOfList l).Nodup :=
  jsSetAux_nodup l [] (by simp)

/-- The list a JavaScript `Set` yields has the same members as its input. -/
theorem mem_jsSetOfList (l : List String) (x : String) : x ∈ jsSetOfList l ↔ x ∈ l := by
  unfold jsSetOfList
  rw [mem_jsSetAux l x []]
  simp

/-- Badge-push counting distributes over emission append. -/
theorem badgePushCount_append (l₁ l₂ : List Emission) (id : String) :
    badgePushCount (l₁ ++ l₂) id = badgePushCount l₁ id + badgePushCount l₂ id := by
  simp [badgePushCount, List.filter_append]

/-- An emission produced by `badgeEmitFor` is always a badge-count event. -/
theorem badgeEmit_event (onlineMap : JsMap) (a : String) (e : Emission)
    (h : badgeEmitFor onlineMap a = some e) :
    e = ⟨.toRoom ("user:" ++ a), "notification:count:update"⟩ := by
  by_cases hon : mapHas onlineMap a = true
  · simp [badgeEmitFor, hon] at h
    exact h.symm
  · simp [badgeEmitFor, hon] at h

/-- Over a duplicate-free recipient list, the badge fan-out sends exactly one
push to each listed online user and none to anyone else. -/
theorem badgePushCount_filterMap (onlineMap : JsMap) (id : String) :
    ∀ S : List String, S.Nodup →
      badgePushCount (S.filterMap (badgeEmitFor onlineMap)) id =
        if id ∈ S ∧ mapHas onlineMap id = true then 1 else 0 := by
  intro S
  induction S with
  | nil => intro _; simp [badgePushCount]
  | cons j S ih =>
      intro hS
      have hj : j ∉ S := (List.nodup_cons.mp hS).1
      have hS2 : S.Nodup := (List.nodup_cons.mp hS).2
      simp only [List.filterMap_cons]
      by_cases hon : mapHas onlineMap j = true
      · have hb : badgeEmitFor onlineMap j =
            some ⟨.toRoom ("user:" ++ j), "notification:count:update"⟩ := by
          simp [badgeEmitFor, hon]
        rw [hb]
        by_cases hji : j = id
        · subst hji
          have hhead :
              badgePushCount
                (⟨Target.toRoom ("user:" ++ j), "notification:count:update"⟩ ::
                  S.filterMap (badgeEmitFor onlineMap)) j =
                1 + badgePushCount (S.filterMap (badgeEmitFor onlineMap)) j := by
            simp [badgePushCount, List.filter_cons, Nat.add_comm]
          rw [hhead, ih hS2]
          simp [hj, hon]
        · have hne : Target.toRoom ("user:" ++ j) ≠ Target.toRoom ("user:" ++ id) := by
            intro hc
            exact hji (string_append_left_cancel (Target.toRoom.inj hc))
          have hhead :
              badgePushCount
                (⟨Target.toRoom ("user:" ++ j), "notification:count:update"⟩ ::
                  S.filterMap (badgeEmitFor onlineMap)) id =
                badgePushCount (S.filterMap (badgeEmitFor onlineMap)) id := by
            simp [badgePushCount, List.filter_cons, hne]
          rw [hhead, ih hS2]
          have hij : ¬ id = j := fun h => hji h.symm
          simp [hij]
      · have hb : badgeEmitFor onlineMap j = none := by
          simp [badgeEmitFor, hon]
        rw [hb, ih hS2]
        by_cases hji : j = id
        · subst hji
          simp [hon]
        · have hij : ¬ id = j := fun h => hji h.symm
          simp [hij]

/-! ### Claim theorems -/

/-- C1 (counterexample): the registry does not satisfy the claimed invariant.
After two connections for user u1 (sockets s1 then s2) the registry holds a
single entry, not two; after s2 then disconnects, a live connection (u1, s1)
still exists yet u1 is no longer in the registry. -/
theorem registry_invariant_counterexample :
    (runRegistry [RegEvent.connect "u1" "s1", RegEvent.connect "u1" "s2"]).1.length = 1 ∧
    (runRegistry [RegEvent.connect "u1" "s1", RegEvent.connect "u1" "s2",
        RegEvent.disconnect "s2"]).2 = [("u1", "s1")] ∧
    mapHas (runRegistry [RegEvent.connect "u1" "s1", RegEvent.connect "u1" "s2",
        RegEvent.disconnect "s2"]).1 "u1" = false := by
  decide

/-- C1 (amended): the registry keeps at most one entry per user — the socket id
of the most recent connection; a second connection for the same user overwrites
the first entry.  Disconnecting a socket whose id is not the stored one leaves
the registry unchanged and fires no broadcast, so the user stays listed;
disconnecting the stored socket removes the user and fires the online-list
broadcast, even when an older connection for the same user is still live. -/
theorem registry_tracks_latest_socket (u s1 s2 : String) (h : s1 ≠ s2) :
    connectRegistry (connectRegistry [] u s1) u s2 = [(u, s2)] ∧
    disconnectRegistry [(u, s2)] s1 = ([(u, s2)], false) ∧
    disconnectRegistry [(u, s2)] s2 = ([], true) := by
  refine ⟨?_, ?_, ?_⟩
  · simp [connectRegistry, mapSet, mapHas]
  · have hne : (s2 == s1) = false := by
      simp [Ne.symm h]
    simp [disconnectRegistry, List.find?, hne]
  · simp [disconnectRegistry, List.find?, mapDelete]

/-- C1 (witness for the amended theorem). -/
theorem registry_tracks_latest_socket_witness :
    connectRegistry (connectRegistry [] "u1" "s1") "u1" "s2" = [("u1", "s2")] ∧
    disconnectRegistry [("u1", "s2")] "s1" = ([("u1", "s2")], false) ∧
    disconnectRegistry [("u1", "s2")] "s2" = ([], true) :=
  registry_tracks_latest_socket "u1" "s1" "s2" (by decide)

/-- C2 (counterexample): a connection that has completed the handshake for user
u1 occupies the bare-id personal room, so it receives the newNotification
pushes, but the notification:count:update badge pushes target the distinct room
user:u1 and are not delivered to it. -/
theorem personal_push_room_counterexample :
    deliveredToConn (handshakeRooms "u1" "citizen" []) (newNotificationRoom "u1") = true ∧
    deliveredToConn (handshakeRooms "u1" "citizen" []) (badgeCountRoom "u1") = false := by
  decide

/-- C2 (amended): every connection auto-joins the bare-userId personal room at
handshake and newNotification pushes are emitted on exactly that room; the
notification:count:update badge pushes however are emitted on the distinct room
user:id, which a connection enters only through the explicit client user:online
event, so badge pushes do not reach connections that only auto-joined. -/
theorem personal_room_push_channels (u role : String) (comms rooms : List String)
    (hu : u ≠ "") :
    (handshakeRooms u role comms).contains (personalRoom u) = true ∧
    newNotificationRoom u = personalRoom u ∧
    badgeCountRoom u ≠ personalRoom u ∧
    (userOnlineHandler rooms u).contains (badgeCountRoom u) = true := by
  refine ⟨by simp [handshakeRooms, personalRoom], rfl, userRoomNe u, ?_⟩
  have hne : (u == "") = false := by simp [hu]
  rw [userOnlineHandler, if_neg (by simp [hne])]
  exact socketJoin_contains rooms _

/-- C2 (witness for the amended theorem). -/
theorem personal_room_push_channels_witness :
    ("u1" : String) ≠ "" ∧
    ((handshakeRooms "u1" "citizen" []).contains (personalRoom "u1") = true ∧
      newNotificationRoom "u1" = personalRoom "u1" ∧
      badgeCountRoom "u1" ≠ personalRoom "u1" ∧
      (userOnlineHandler [] "u1").contains (badgeCountRoom "u1") = true) :=
  ⟨by decide, personal_room_push_channels "u1" "citizen" [] [] (by decide)⟩

/-- C3 (counterexample): m1 is a moderator (and not member or owner) of the
community, yet joinCommunityFeedRoom rejects m1 with an errorMessage instead of
joining — the feed-room handler checks only member-or-owner. -/
theorem feed_room_moderator_counterexample :
    (Community.mk [] [] ["m1"]).moderators.contains "m1" = true ∧
    joinCommunityFeedRoom (some (Community.mk [] [] ["m1"])) "m1"
        "0123456789abcdef01234567" =
      SocketReply.errorMessage "Not authorized to access this community\x27s feed." := by
  decide

/-- C3 (amended): against the community document fetched at action time,
joinCommunityRoom succeeds exactly for members, owners and moderators, while
joinCommunityFeedRoom succeeds exactly for members and owners — a
moderator-only user is rejected there; every rejection is an errorMessage to
the requesting connection with no room join, so a user removed from the
community before the action is rejected even though the handshake succeeded. -/
theorem community_room_join_authorization (c : Community) (u cid : String)
    (hv : isValidObjectId cid = true) :
    joinCommunityRoom (some c) u cid =
      (if c.members.contains u || c.owners.contains u || c.moderators.contains u then
        SocketReply.joinedRoom ("community:" ++ cid) "joinedCommunityRoom"
       else SocketReply.errorMessage "Not authorized to join this community room.") ∧
    joinCommunityFeedRoom (some c) u cid =
      (if c.members.contains u || c.owners.contains u then
        SocketReply.joinedRoom ("community:" ++ cid) "joinedCommunityFeedRoom"
       else
        SocketReply.errorMessage
          "Not authorized to access this community\x27s feed.") := by
  by_cases hm : u ∈ c.members <;> by_cases ho : u ∈ c.owners <;>
    by_cases hmod : u ∈ c.moderators <;>
      simp [joinCommunityRoom, joinCommunityFeedRoom, isUserCommunityMemberOrAdmin,
        hv, hm, ho, hmod]

/-- C3 (witness for the amended theorem): a plain member joins both rooms, and
a user no longer in any of the three lists is rejected by both handlers. -/
theorem community_room_join_authorization_witness :
    isValidObjectId "0123456789abcdef01234567" = true ∧
    (joinCommunityRoom (some (Community.mk ["u1"] [] [])) "u1"
        "0123456789abcdef01234567" =
      (if (["u1"] : List String).contains "u1" || ([] : List String).contains "u1"
          || ([] : List String).contains "u1" then
        SocketReply.joinedRoom ("community:" ++ "0123456789abcdef01234567")
          "joinedCommunityRoom"
       else SocketReply.errorMessage "Not authorized to join this community room.") ∧
     joinCommunityFeedRoom (some (Community.mk ["u1"] [] [])) "u1"
        "0123456789abcdef01234567" =
      (if (["u1"] : List String).contains "u1"
          || ([] : List String).contains "u1" then
        SocketReply.joinedRoom ("community:" ++ "0123456789abcdef01234567")
          "joinedCommunityFeedRoom"
       else
        SocketReply.errorMessage
          "Not authorized to access this community\x27s feed.")) :=
  ⟨by decide,
   community_room_join_authorization (Community.mk ["u1"] [] []) "u1"
     "0123456789abcdef01234567" (by decide)⟩

/-- C4: the joinRoom handler adds the connection to whatever room identifier
the client supplies, with no membership, participant or role check — including
community rooms, the admin room and other users personal rooms — and the
joinPostRoom handler likewise adds the connection to post:id for any id. -/
theorem unconditional_room_join :
    (∀ rooms r, (joinRoomHandler rooms r).contains r = true) ∧
    (∀ rooms v, (joinRoomHandler rooms (personalRoom v)).contains (personalRoom v) = true) ∧
    (∀ rooms cid,
      (joinRoomHandler rooms ("community:" ++ cid)).contains ("community:" ++ cid) = true) ∧
    (∀ rooms, (joinRoomHandler rooms "admin:approvals").contains "admin:approvals" = true) ∧
    (∀ rooms p, (joinPostRoomHandler rooms p).contains ("post:" ++ p) = true) :=
  ⟨fun rooms r => socketJoin_contains rooms r,
   fun rooms v => socketJoin_contains rooms (personalRoom v),
   fun rooms cid => socketJoin_contains rooms ("community:" ++ cid),
   fun rooms => socketJoin_contains rooms "admin:approvals",
   fun rooms p => socketJoin_contains rooms ("post:" ++ p)⟩

/-- C5: a community-scoped createLogInternal call with valid data persists
exactly one log entry, and the badge fan-out sends exactly one
notification:count:update push to each distinct online owner or moderator of
the community fetched at call time — one push for a user listed as both owner
and moderator — and none to offline users or to anyone else. -/
theorem moderation_log_badge_dedup (onlineMap : JsMap) (c : Community) (d : LogData)
    (cid : String) (h1 : d.communityId = some cid) (h2 : logDataValid d = true) :
    (createLogInternal true onlineMap (some c) d).saved.length = 1 ∧
    ∀ id, badgePushCount (createLogInternal true onlineMap (some c) d).emissions id =
      if (id ∈ c.owners ∨ id ∈ c.moderators) ∧ mapHas onlineMap id = true then 1
      else 0 := by
  have hexp : createLogInternal true onlineMap (some c) d =
      ⟨[⟨d.communityId, d.moderatorId, d.action, d.targetId, d.reason⟩],
       (jsSetOfList (c.owners ++ c.moderators)).filterMap (badgeEmitFor onlineMap) ++
         [⟨.toRoom ("community:" ++ cid), "moderation:log:created"⟩],
       some ⟨d.communityId, d.moderatorId, d.action, d.targetId, d.reason⟩⟩ := by
    simp [createLogInternal, h2, h1]
  rw [hexp]
  refine ⟨rfl, ?_⟩
  intro id
  have hlast :
      badgePushCount [⟨Target.toRoom ("community:" ++ cid), "moderation:log:created"⟩] id
        = 0 := by
    simp [badgePushCount]
  rw [badgePushCount_append,
    badgePushCount_filterMap onlineMap id _ (jsSetOfList_nodup (c.owners ++ c.moderators)),
    hlast]
  simp [mem_jsSetOfList, List.mem_append]

/-- C5 (witness): owner-and-moderator o1 gets exactly one badge push, the
offline moderator m3 gets none, and exactly one entry is persisted. -/
theorem moderation_log_badge_dedup_witness :
    (⟨some "0123456789abcdef01234567", "76543210fedcba9876543210", "post_removed",
        none, ""⟩ : LogData).communityId = some "0123456789abcdef01234567" ∧
    logDataValid ⟨some "0123456789abcdef01234567", "76543210fedcba9876543210",
        "post_removed", none, ""⟩ = true ∧
    (createLogInternal true [("o1", "s1"), ("m2", "s2")]
        (some (Community.mk [] ["o1"] ["o1", "m2", "m3"]))
        ⟨some "0123456789abcdef01234567", "76543210fedcba9876543210", "post_removed",
          none, ""⟩).saved.length = 1 ∧
    badgePushCount (createLogInternal true [("o1", "s1"), ("m2", "s2")]
        (some (Community.mk [] ["o1"] ["o1", "m2", "m3"]))
        ⟨some "0123456789abcdef01234567", "76543210fedcba9876543210", "post_removed",
          none, ""⟩).emissions "o1" = 1 ∧
    badgePushCount (createLogInternal true [("o1", "s1"), ("m2", "s2")]
        (some (Community.mk [] ["o1"] ["o1", "m2", "m3"]))
        ⟨some "0123456789abcdef01234567", "76543210fedcba9876543210", "post_removed",
          none, ""⟩).emissions "m3" = 0 := by
  refine ⟨rfl, by decide, ?_, ?_, ?_⟩
  · exact (moderation_log_badge_dedup [("o1", "s1"), ("m2", "s2")]
      (Community.mk [] ["o1"] ["o1", "m2", "m3"]) _ "0123456789abcdef01234567"
      rfl (by decide)).1
  · rw [(moderation_log_badge_dedup [("o1", "s1"), ("m2", "s2")]
      (Community.mk [] ["o1"] ["o1", "m2", "m3"]) _ "0123456789abcdef01234567"
      rfl (by decide)).2 "o1"]
    decide
  · rw [(moderation_log_badge_dedup [("o1", "s1"), ("m2", "s2")]
      (Community.mk [] ["o1"] ["o1", "m2", "m3"]) _ "0123456789abcdef01234567"
      rfl (by decide)).2 "m3"]
    decide

/-- C6: a handshake with no token or a token that fails verification is closed
with the authentication error before any room is joined and before any registry
write, and a connection that reaches the connected state necessarily presented
a token that verified — and has auto-joined its personal room. -/
theorem handshake_auth_gate (verify : String → Option DecodedUser) (tok : Option String)
    (reg : JsMap) (sid : String) (comms : List String) :
    ((tok = none ∨ ∃ t, tok = some t ∧ verify t = none) →
      connectionPipeline verify tok reg sid comms =
        ⟨.authRejected "Authentication error", [], reg⟩) ∧
    (∀ uid, (connectionPipeline verify tok reg sid comms).outcome = .connected uid →
      (∃ t u, tok = some t ∧ verify t = some u) ∧
        (connectionPipeline verify tok reg sid comms).joinedRooms.contains
          (personalRoom uid) = true) := by
  constructor
  · rintro (rfl | ⟨t, rfl, hv⟩)
    · rfl
    · simp [connectionPipeline, socketAuth, hv]
  · intro uid h
    cases tok with
    | none => simp [connectionPipeline, socketAuth] at h
    | some t =>
      cases hv : verify t with
      | none => simp [connectionPipeline, socketAuth, hv] at h
      | some u =>
        refine ⟨⟨t, u, rfl, hv⟩, ?_⟩
        simp only [connectionPipeline, socketAuth, hv] at h ⊢
        cases hres : jsOrString u.userId (jsOrString u.id u._id) with
        | none => simp [hres] at h
        | some v =>
          by_cases hv2 : v = ""
          · subst hv2
            simp [hres] at h
          · have hne : (v == "") = false := by simp [hv2]
            simp only [hres, hne, Bool.false_eq_true, if_false] at h ⊢
            have huid : v = uid := by
              simpa using h
            subst huid
            simp [handshakeRooms, personalRoom]

/-- C6 (witness): a token that fails verification is rejected with no joined
room and an untouched registry; a verifying token reaches the connected state
with the personal room joined. -/
theorem handshake_auth_gate_witness :
    (connectionPipeline (fun _ => none) (some "badtoken") [] "s1" [] =
      ⟨.authRejected "Authentication error", [], []⟩) ∧
    ((∃ t u, (some "tok" : Option String) = some t ∧
        (fun _ => some (DecodedUser.mk (some "u1") none none none none)) t = some u) ∧
      (connectionPipeline (fun _ => some (DecodedUser.mk (some "u1") none none none none))
          (some "tok") [] "s1" []).joinedRooms.contains (personalRoom "u1") = true) :=
  ⟨(handshake_auth_gate (fun _ => none) (some "badtoken") [] "s1" []).1
      (Or.inr ⟨"badtoken", rfl, rfl⟩),
   (handshake_auth_gate (fun _ => some (DecodedUser.mk (some "u1") none none none none))
      (some "tok") [] "s1" []).2 "u1" rfl⟩

/-- C7: the newPost emission of createPost goes to exactly one room — the
community room when the post has a community identity, else global:feed — and
so does the pollVoteUpdated emission of castPollVote; the remaining createPost
emissions are the separate badge-count pushes, so the content event is never
additionally emitted to personal rooms. -/
theorem content_event_single_room (post : PopulatedPost) (fetched : Option Community)
    (onlineMap : JsMap) (authorId : String) :
    ((createPostEmissions post fetched onlineMap authorId).filter
        (fun e => e.event == "newPost") =
      [⟨.toRoom (getPostTargetRoom post), "newPost"⟩]) ∧
    ((createPostEmissions post fetched onlineMap authorId).filter
        (fun e => e.event != "newPost")).all
      (fun e => e.event == "notification:count:update") = true ∧
    castPollVoteEmissions post = [⟨.toRoom (getPostTargetRoom post), "pollVoteUpdated"⟩] ∧
    (∀ cid, post.communityId = some cid → getPostTargetRoom post = "community:" ++ cid) ∧
    (post.communityId = none → getPostTargetRoom post = "global:feed") := by
  refine ⟨?_, ?_, rfl, ?_, ?_⟩
  · simp only [createPostEmissions, List.filter_cons]
    simp only [show (("newPost" : String) == "newPost") = true from by decide, if_pos]
    rw [List.filter_eq_nil_iff.mpr ?_]
    intro e he
    obtain ⟨a, -, hfa⟩ := List.mem_filterMap.mp he
    rw [badgeEmit_event onlineMap a e hfa]
    simp
  · rw [List.all_eq_true]
    intro e he
    have he2 := List.mem_of_mem_filter he
    simp only [createPostEmissions, List.mem_cons] at he2
    rcases he2 with rfl | he2
    · have := List.mem_filter.mp he
      simp at this
    · obtain ⟨a, -, hfa⟩ := List.mem_filterMap.mp he2
      rw [badgeEmit_event onlineMap a e hfa]
      simp
  · intro cid hc
    simp [getPostTargetRoom, hc]
  · intro hc
    simp [getPostTargetRoom, hc]

/-- C7 (witness): concrete community and global posts. -/
theorem content_event_single_room_witness :
    getPostTargetRoom ⟨some "c1"⟩ = "community:" ++ "c1" ∧
    getPostTargetRoom ⟨none⟩ = "global:feed" ∧
    ((createPostEmissions ⟨none⟩ none [("u1", "s1")] "a").filter
        (fun e => e.event == "newPost") =
      [⟨.toRoom (getPostTargetRoom ⟨none⟩), "newPost"⟩]) :=
  ⟨(content_event_single_room ⟨some "c1"⟩ none [] "a").2.2.2.1 "c1" rfl,
   (content_event_single_room ⟨none⟩ none [] "a").2.2.2.2 rfl,
   (content_event_single_room ⟨none⟩ none [("u1", "s1")] "a").1⟩

/-- C8: behavior of createLogInternal at the claim boundary.  With valid data,
a null community id and the Socket.IO fan-out enabled, the global branch reads
the unbound identifier User, raising a ReferenceError after the save: exactly
one entry is persisted, yet the call returns null instead of the saved entry
and produces no emission at all.  A validation failure (malformed moderator id)
returns null with nothing persisted, and a community-scoped call with valid
data does return the saved entry. -/
theorem global_log_fanout_bug :
    (createLogInternal true []
        (some (Community.mk [] [] []))
        ⟨none, "76543210fedcba9876543210", "user_banned", none, ""⟩ =
      ⟨[⟨none, "76543210fedcba9876543210", "user_banned", none, ""⟩], [], none⟩) ∧
    (createLogInternal true [] (some (Community.mk [] [] []))
        ⟨none, "not-an-objectid", "user_banned", none, ""⟩ = ⟨[], [], none⟩) ∧
    ((createLogInternal true [] (some (Community.mk [] [] []))
        ⟨some "0123456789abcdef01234567", "76543210fedcba9876543210", "user_banned",
          none, ""⟩).result =
      some ⟨some "0123456789abcdef01234567", "76543210fedcba9876543210", "user_banned",
        none, ""⟩) := by
  decide

/-- C9: a top-level comment on a post whose author differs from the commenter
persists exactly one notification of type comment_post and emits exactly one
newNotification to the post author personal room; a comment by the author on
their own post creates and emits nothing. -/
theorem comment_notification_exactly_one (p : PostDoc) (userId : String) :
    (p.authorId ≠ userId →
      handleCreateComment (some p) none none userId =
        .ok ([⟨p.authorId, userId, "comment_post"⟩],
             [⟨.toRoom (newNotificationRoom p.authorId), "newNotification"⟩])) ∧
    (p.authorId = userId →
      handleCreateComment (some p) none none userId = .ok ([], [])) ∧
    newNotificationRoom p.authorId = personalRoom p.authorId := by
  refine ⟨?_, ?_, rfl⟩
  · intro h
    have hne : (p.authorId == userId) = false := by simp [h]
    simp [handleCreateComment, hne]
  · intro h
    simp [handleCreateComment, h]

/-- C9 (witness): commenter b on a post of author c, then on their own post. -/
theorem comment_notification_exactly_one_witness :
    ("c" : String) ≠ "b" ∧
    handleCreateComment (some (PostDoc.mk "c" "t")) none none "b" =
      .ok ([⟨"c", "b", "comment_post"⟩],
           [⟨.toRoom (newNotificationRoom "c"), "newNotification"⟩]) ∧
    handleCreateComment (some (PostDoc.mk "b" "t")) none none "b" = .ok ([], []) :=
  ⟨by decide,
   (comment_notification_exactly_one (PostDoc.mk "c" "t") "b").1 (by decide),
   (comment_notification_exactly_one (PostDoc.mk "b" "t") "b").2.1 rfl⟩

/-- C10 (counterexample): editMessage and deleteMessage with a malformed
messageId (zz) or an unknown-but-valid messageId produce no emission at all —
in particular no errorMessage to the sender — contradicting the claim that
validation and not-found failures on these actions are reported. -/
theorem edit_delete_silent_counterexample :
    editMessageHandler none "u1" "zz" = [] ∧
    deleteMessageHandler none "u1" "zz" = [] ∧
    editMessageHandler none "u1" "0123456789abcdef01234567" = [] ∧
    deleteMessageHandler none "u1" "0123456789abcdef01234567" = [] := by
  decide

/-- C10 (amended): editMessage and deleteMessage silently swallow a malformed
messageId, an unknown messageId and an already-deleted message — the connection
receives nothing; they emit errorMessage to the sender only when the message
exists and the sender is not its author. -/
theorem edit_delete_error_reporting (fetched : Option MessageDoc) (u mid : String) :
    ((isValidObjectId mid = false ∨ fetched = none ∨
        (∃ m, fetched = some m ∧ m.isDeleted = true)) →
      editMessageHandler fetched u mid = [] ∧ deleteMessageHandler fetched u mid = []) ∧
    (∀ m, fetched = some m → m.isDeleted = false → m.author ≠ u →
      isValidObjectId mid = true →
      editMessageHandler fetched u mid = [⟨.toSender, "errorMessage"⟩] ∧
      deleteMessageHandler fetched u mid = [⟨.toSender, "errorMessage"⟩]) := by
  constructor
  · rintro (hval | rfl | ⟨m, rfl, hdel⟩)
    · simp [editMessageHandler, deleteMessageHandler, hval]
    · cases hval2 : isValidObjectId mid <;>
        simp [editMessageHandler, deleteMessageHandler, hval2]
    · cases hval2 : isValidObjectId mid <;>
        simp [editMessageHandler, deleteMessageHandler, hval2, hdel]
  · rintro m rfl hdel hauth hval
    have hne : (m.author == u) = false := by simp [hauth]
    simp [editMessageHandler, deleteMessageHandler, hval, hdel, hne]

/-- C10 (witness for the amended theorem): silent drop on a malformed id, and
an errorMessage for a non-author edit of an existing message. -/
theorem edit_delete_error_reporting_witness :
    (editMessageHandler none "u1" "zz" = [] ∧
      deleteMessageHandler none "u1" "zz" = []) ∧
    (editMessageHandler (some (MessageDoc.mk "u2" "conv1" false)) "u1"
        "0123456789abcdef01234567" = [⟨.toSender, "errorMessage"⟩] ∧
      deleteMessageHandler (some (MessageDoc.mk "u2" "conv1" false)) "u1"
        "0123456789abcdef01234567" = [⟨.toSender, "errorMessage"⟩]) :=
  ⟨(edit_delete_error_reporting none "u1" "zz").1 (Or.inl (by decide)),
   (edit_delete_error_reporting (some (MessageDoc.mk "u2" "conv1" false)) "u1"
      "0123456789abcdef01234567").2 (MessageDoc.mk "u2" "conv1" false) rfl rfl
      (by decide) (by decide)⟩

end CivicBackend
